import Mathlib

/-!
Verification development for the floppy-brick piece simulation engine
(src/main.rs and src/tetromino.rs).

Embedding conventions:
* Rust `i32` is modeled as `Int` and `usize` as `Nat` (no arithmetic in the
  embedded code approaches the machine bounds).
* Rust `f32` physics scalars are modeled as exact rationals `ℚ`: every
  constant in the source is a small integer or half-integer, and every
  operation performed (negation, addition, multiplication by 0.5) is exact
  in binary floating point at the magnitudes the game uses.
* Bevy entities, material handles and rapier body handles are opaque ids,
  modeled as `Nat`.  Entity allocation is modeled by an explicit counter.
* The ECS side effects (`commands.spawn`, `commands.despawn`) are modeled
  as an explicit command list produced by each system.
* Randomness (`rand::thread_rng().gen_range`, `TetrominoKind::random`,
  `random_color`) is modeled by passing the generator outcome in as a
  parameter.
* The `HashSet<Entity>` of current blocks is modeled as the list of its
  elements; the freshly spawned entities inserted into it are pairwise
  distinct, and all statements about it are order-insensitive.
-/

/-- Rust `type IVector = (i32, i32)`. -/
abbrev IVector := Int × Int

/-- Physics scalar (`f32` in the source, modeled exactly). -/
abbrev Phys := ℚ

/-- `const MOVEMENT_FORCE: f32 = 20.0`. -/
def MOVEMENT_FORCE : Phys := 20

/-- `const N_LANES: usize = 10`. -/
def N_LANES : Nat := 10

/-- `const N_ROWS: usize = 20`. -/
def N_ROWS : Nat := 20

/-- The `Game` resource (rendering-only fields `camera` omitted). -/
structure Game where
  n_lanes : Nat
  n_rows : Nat
  block_color : Option Nat
  current_tetromino_blocks : List Nat
  current_tetromino_joints : List Nat
  deriving DecidableEq

/-- `Game::floor_y`: `-(self.n_rows as f32) * 0.5`. -/
def Game.floor_y (g : Game) : Phys := -(g.n_rows : Phys) * (1/2)

/-- `Game::left_edge_x`: `-(self.n_lanes as f32) * 0.5`. -/
def Game.left_edge_x (g : Game) : Phys := -(g.n_lanes : Phys) * (1/2)

/-- `Game::translate_to_board_center_top`:
`x = col + self.n_lanes as i32 / 2; y = row + self.n_rows as i32`. -/
def Game.translate_to_board_center_top (g : Game) : IVector → IVector
  | (col, row) => (col + (g.n_lanes : Int) / 2, row + (g.n_rows : Int))

/-- `Game::board_to_physics`:
`x = self.left_edge_x() + col as f32 + 0.5; y = self.floor_y() + row as f32 + 0.5`. -/
def Game.board_to_physics (g : Game) : IVector → Phys × Phys
  | (col, row) => (g.left_edge_x + (col : Phys) + 1/2, g.floor_y + (row : Phys) + 1/2)

/-- `impl Default for Game` (camera/color fields start empty). -/
def Game.start : Game :=
  { n_lanes := N_LANES
    n_rows := N_ROWS
    block_color := none
    current_tetromino_blocks := []
    current_tetromino_joints := [] }

/-- `enum TetrominoKind { I, O, T, J, L, S, Z }`. -/
inductive TetrominoKind where
  | I | O | T | J | L | S | Z
  deriving DecidableEq, Fintype

/-- `struct TetrominoLayout { coords: [IVector; 4], joints: Vec<(usize, usize)> }`.
The fixed-size Rust array is modeled as a list (proved to have length 4). -/
structure TetrominoLayout where
  coords : List IVector
  joints : List (Nat × Nat)
  deriving DecidableEq

/-- `TetrominoKind::random`, with the `gen_range(0..=6)` outcome passed in:
the exact `match` arm mapping of the source. -/
def TetrominoKind.random_of (n : Nat) : TetrominoKind :=
  match n with
  | 0 => .I
  | 1 => .O
  | 2 => .T
  | 3 => .J
  | 4 => .L
  | 5 => .S
  | _ => .Z

/-- `TetrominoKind::layout`, transcribed from the source `match`. -/
def TetrominoKind.layout : TetrominoKind → TetrominoLayout
  | .I => { coords := [(1, 1), (1, 0), (1, -1), (1, -2)]
            joints := [(0, 1), (1, 2), (2, 3)] }
  | .O => { coords := [(0, 0), (1, 0), (1, -1), (0, -1)]
            joints := [(0, 1), (1, 2), (2, 3), (1, 0)] }
  | .T => { coords := [(0, 0), (1, 0), (2, 0), (1, -1)]
            joints := [(0, 1), (1, 2), (1, 3)] }
  | .J => { coords := [(1, 0), (1, -1), (1, -2), (0, -2)]
            joints := [(0, 1), (1, 2), (2, 3)] }
  | .L => { coords := [(1, 0), (1, -1), (1, -2), (2, -2)]
            joints := [(0, 1), (1, 2), (2, 3)] }
  | .S => { coords := [(0, -1), (1, -1), (1, 0), (2, 0)]
            joints := [(0, 1), (1, 2), (2, 3)] }
  | .Z => { coords := [(0, 0), (1, 0), (1, -1), (2, -1)]
            joints := [(0, 1), (1, 2), (2, 3)] }

/-- Modelled from the spec: the authoritative shape table of section 4.2,
written from the spec text, to be compared with the source `layout`. -/
def layoutForSpec : TetrominoKind → TetrominoLayout
  | .I => { coords := [(1, 1), (1, 0), (1, -1), (1, -2)]
            joints := [(0, 1), (1, 2), (2, 3)] }
  | .O => { coords := [(0, 0), (1, 0), (1, -1), (0, -1)]
            joints := [(0, 1), (1, 2), (2, 3), (1, 0)] }
  | .T => { coords := [(0, 0), (1, 0), (2, 0), (1, -1)]
            joints := [(0, 1), (1, 2), (1, 3)] }
  | .J => { coords := [(1, 0), (1, -1), (1, -2), (0, -2)]
            joints := [(0, 1), (1, 2), (2, 3)] }
  | .L => { coords := [(1, 0), (1, -1), (1, -2), (2, -2)]
            joints := [(0, 1), (1, 2), (2, 3)] }
  | .S => { coords := [(0, -1), (1, -1), (1, 0), (2, 0)]
            joints := [(0, 1), (1, 2), (2, 3)] }
  | .Z => { coords := [(0, 0), (1, 0), (1, -1), (2, -1)]
            joints := [(0, 1), (1, 2), (2, 3)] }

/-- Normalize a joint index pair to an undirected edge (smaller index first). -/
def undirected (p : Nat × Nat) : Nat × Nat :=
  if p.1 ≤ p.2 then p else (p.2, p.1)

/-- The undirected edge between blocks `a` and `b` occurs among the joint pairs. -/
def hasEdge (js : List (Nat × Nat)) (a b : Nat) : Prop :=
  undirected (a, b) ∈ js.map undirected

instance (js : List (Nat × Nat)) (a b : Nat) : Decidable (hasEdge js a b) := by
  unfold hasEdge; infer_instance

/-- Boolean form of `hasEdge`, for executable acyclicity checking. -/
def hasEdgeB (js : List (Nat × Nat)) (a b : Nat) : Bool :=
  decide (undirected (a, b) ∈ js.map undirected)

/-- Number of distinct undirected joint edges incident to block `v`
(meaningful when the undirected pairs are `Nodup`). -/
def degree (js : List (Nat × Nat)) (v : Nat) : Nat :=
  (js.map undirected).countP (fun e => e.1 == v || e.2 == v)

/-- The joint pairs form a closed 4-cycle over the block indices 0..3:
four pairwise-distinct undirected edges with every block of degree 2
(on 4 vertices this forces a single square cycle visiting every block). -/
def isClosedFourCycle (js : List (Nat × Nat)) : Prop :=
  js.length = 4 ∧ (js.map undirected).Nodup ∧ ∀ v < 4, degree js v = 2

instance (js : List (Nat × Nat)) : Decidable (isClosedFourCycle js) := by
  unfold isClosedFourCycle; infer_instance

/-- No three blocks are pairwise jointed.  Three pairwise-distinct undirected
edges on the 4 block indices contain a cycle exactly when they contain a
triangle, so this captures acyclicity (openness) of a 3-joint topology. -/
def acyclicOn4 (js : List (Nat × Nat)) : Prop :=
  ((List.range 4).all fun a =>
    (List.range 4).all fun b =>
      (List.range 4).all fun c =>
        a == b || b == c || a == c ||
          !(hasEdgeB js a b && hasEdgeB js b c && hasEdgeB js a c)) = true

instance (js : List (Nat × Nat)) : Decidable (acyclicOn4 js) := by
  unfold acyclicOn4; infer_instance

/-- C4: `translate_to_board_center_top` returns
`(c + lane_count/2, r + row_count)` with truncating integer division, and
`board_to_physics` returns `(left_edge_x + col + 0.5, floor_y + row + 0.5)`
with `left_edge_x = -lane_count * 0.5` and `floor_y = -row_count * 0.5`;
on the reference 10×20 board the composite sends local `(0, 0)` to
physics `(0.5, 10.5)`. -/
theorem board_transform_spec :
    (∀ (g : Game) (c r : Int),
      g.translate_to_board_center_top (c, r)
        = (c + (g.n_lanes : Int) / 2, r + (g.n_rows : Int)) ∧
      g.board_to_physics (c, r)
        = (-(g.n_lanes : Phys) * (1/2) + (c : Phys) + 1/2,
           -(g.n_rows : Phys) * (1/2) + (r : Phys) + 1/2)) ∧
    Game.start.board_to_physics (Game.start.translate_to_board_center_top (0, 0))
      = (1/2, 21/2) := by
  refine ⟨fun g c r => ⟨rfl, rfl⟩, ?_⟩
  simp only [Game.board_to_physics, Game.translate_to_board_center_top, Game.start,
    Game.left_edge_x, Game.floor_y, N_LANES, N_ROWS]
  norm_num

/-- C5: `layout` is a total pure function agreeing, kind by kind, with the
spec's authoritative 7-row shape table (coordinates and joint pairs). -/
theorem layout_matches_spec_table :
    ∀ k : TetrominoKind, k.layout = layoutForSpec k := by
  intro k
  cases k <;> rfl

/-- C6: every kind's layout has exactly 4 coordinates, and every joint
index pair `(i, j)` satisfies `i < 4`, `j < 4` and `i ≠ j`
(`0 ≤ i, j` holds by the `Nat` index type, matching Rust's `usize`). -/
theorem layout_basic_invariants :
    ∀ k : TetrominoKind, k.layout.coords.length = 4 ∧
      ∀ p ∈ k.layout.joints, p.1 < 4 ∧ p.2 < 4 ∧ p.1 ≠ p.2 := by
  intro k
  cases k <;> decide

/-- Witness for `layout_basic_invariants` at kind `O` and pair `(1, 0)`. -/
theorem layout_basic_invariants_witness :
    TetrominoKind.O.layout.coords.length = 4 ∧
      ((1, 0).1 < 4 ∧ (1, 0).2 < 4 ∧ ((1, 0) : Nat × Nat).1 ≠ (1, 0).2) :=
  ⟨(layout_basic_invariants TetrominoKind.O).1,
   (layout_basic_invariants TetrominoKind.O).2 (1, 0) (by decide)⟩

/-- C9: the random selector maps the 7 equiprobable generator outcomes
0..6 bijectively onto the 7 kinds: every kind is hit, and no two distinct
outcomes in 0..6 produce the same kind. -/
theorem random_of_bijective_on_outcomes :
    (∀ k : TetrominoKind, ∃ n : Fin 7, TetrominoKind.random_of n.val = k) ∧
    ∀ m n : Fin 7,
      TetrominoKind.random_of m.val = TetrominoKind.random_of n.val → m = n := by
  constructor
  · intro k
    cases k
    · exact ⟨0, rfl⟩
    · exact ⟨1, rfl⟩
    · exact ⟨2, rfl⟩
    · exact ⟨3, rfl⟩
    · exact ⟨4, rfl⟩
    · exact ⟨5, rfl⟩
    · exact ⟨6, rfl⟩
  · decide

/-- Witness for `random_of_bijective_on_outcomes` at kind `Z` and outcome 6. -/
theorem random_of_bijective_witness :
    (∃ n : Fin 7, TetrominoKind.random_of n.val = TetrominoKind.Z) ∧
      (6 : Fin 7) = 6 :=
  ⟨random_of_bijective_on_outcomes.1 TetrominoKind.Z,
   random_of_bijective_on_outcomes.2 6 6 rfl⟩

/-- C2 counterexample: the O layout's joint pairs do NOT form a closed
4-cycle: the closing pair `(1, 0)` is the same undirected edge as `(0, 1)`,
so the 4 pairs yield only 3 distinct undirected edges. -/
theorem o_joints_not_a_four_cycle :
    ¬ isClosedFourCycle TetrominoKind.O.layout.joints := by
  decide

/-- C2 amended: the O layout's 4 joint pairs contain the duplicate
undirected edge `(1, 0) ≡ (0, 1)`, giving exactly the 3 distinct edges of
the open chain 0-1-2-3 and no joint between blocks 3 and 0; every other
kind has 3 pairwise-distinct undirected joint edges forming an acyclic
(open) topology — kind T is the tree `(0,1),(1,2),(1,3)` centered at block
1, and the remaining five kinds are the open chain `(0,1),(1,2),(2,3)`. -/
theorem joint_topology_open_chains :
    (TetrominoKind.O.layout.joints.map undirected
        = [(0, 1), (1, 2), (2, 3), (0, 1)] ∧
      ¬ hasEdge TetrominoKind.O.layout.joints 3 0) ∧
    (∀ k : TetrominoKind, k ≠ TetrominoKind.O →
      (k.layout.joints.map undirected).Nodup ∧
      k.layout.joints.length = 3 ∧
      acyclicOn4 k.layout.joints ∧
      (k = TetrominoKind.T ∨ k.layout.joints = [(0, 1), (1, 2), (2, 3)])) ∧
    TetrominoKind.T.layout.joints = [(0, 1), (1, 2), (1, 3)] := by
  refine ⟨by decide, ?_, by decide⟩
  intro k hk
  cases k
  all_goals first
  | exact absurd rfl hk
  | decide

/-- Witness for `joint_topology_open_chains` at kind `I`. -/
theorem joint_topology_open_chains_witness :
    (TetrominoKind.I.layout.joints.map undirected).Nodup ∧
      TetrominoKind.I.layout.joints.length = 3 ∧
      acyclicOn4 TetrominoKind.I.layout.joints ∧
      (TetrominoKind.I = TetrominoKind.T ∨
        TetrominoKind.I.layout.joints = [(0, 1), (1, 2), (2, 3)]) :=
  joint_topology_open_chains.2.1 TetrominoKind.I (by decide)

/-- `spawn_block` (physics content): the spawned rigid body's translation,
`board_to_physics(translate_to_board_center_top(tetromino_coord))`.
The body is built with `mass(BLOCK_MASS)`, `linear_damping(BLOCK_LINEAR_DAMPING)`
and a 0.5×0.5 cuboid collider; only the position varies per call. -/
def spawn_block (g : Game) (tetromino_coord : IVector) : Phys × Phys :=
  g.board_to_physics (g.translate_to_board_center_top tetromino_coord)

/-- A `BallJoint` creation request
(`JointBuilderComponent::new(BallJoint::new(anchor_1, anchor_2), e_i, e_j)`). -/
structure JointSpec where
  anchor1 : Phys × Phys
  anchor2 : Phys × Phys
  body1 : Nat
  body2 : Nat
  deriving DecidableEq

/-- The ECS side effects a system issues through `Commands`. -/
inductive Cmd where
  | spawnBlock (entity : Nat) (pos : Phys × Phys)
  | spawnJoint (entity : Nat) (joint : JointSpec)
  | despawn (entity : Nat)
  deriving DecidableEq

/-- Result of `spawn_tetromino`: the issued commands, the updated `Game`
resource, and the advanced entity-allocation counter. -/
structure SpawnOut where
  cmds : List Cmd
  game : Game
  next_entity : Nat
  deriving DecidableEq

/-- `spawn_tetromino`, with the randomly drawn `kind` passed in and entity
allocation made explicit by a counter.  Faithfully to the source, the block
mapping is `coords.iter().map(|_| spawn_block(commands, game, kind, coords[0]))`:
the iterated coordinate is discarded, so every one of the 4 blocks is spawned
at the physics position of `coords[0]`.  Each joint pair `(i, j)` produces a
`BallJoint` with anchors `(x_dir * 0.5, y_dir * 0.5)` and
`(x_dir * -0.5, y_dir * -0.5)` where `(x_dir, y_dir) = coords[j] - coords[i]`,
attached to block entities `i` and `j`.  (All joint indices are in range for
every layout, so the `getD` defaults are never taken.) -/
def spawn_tetromino (kind : TetrominoKind) (game : Game) (next_entity : Nat) :
    SpawnOut :=
  let l := kind.layout
  let coords := l.coords
  let anchor_pos := spawn_block game (coords.getD 0 (0, 0))
  let block_entities := coords.enum.map (fun p => next_entity + p.1)
  let blockCmds := block_entities.map (fun e => Cmd.spawnBlock e anchor_pos)
  let joint_base := next_entity + coords.length
  let jointSpecs := l.joints.map (fun ij =>
    let x_dir : Phys := ((coords.getD ij.2 (0, 0)).1 - (coords.getD ij.1 (0, 0)).1 : Int)
    let y_dir : Phys := ((coords.getD ij.2 (0, 0)).2 - (coords.getD ij.1 (0, 0)).2 : Int)
    { anchor1 := (x_dir * (1/2), y_dir * (1/2))
      anchor2 := (x_dir * (-(1/2) : Phys), y_dir * (-(1/2) : Phys))
      body1 := block_entities.getD ij.1 0
      body2 := block_entities.getD ij.2 0 })
  let joint_entities := jointSpecs.enum.map (fun p => joint_base + p.1)
  let jointCmds := jointSpecs.enum.map (fun p => Cmd.spawnJoint (joint_base + p.1) p.2)
  { cmds := blockCmds ++ jointCmds
    game := { game with
      current_tetromino_blocks := block_entities
      current_tetromino_joints := joint_entities }
    next_entity := joint_base + jointSpecs.length }

/-- The physics positions of the blocks spawned by one assembler run,
in spawn order. -/
def block_positions (s : SpawnOut) : List (Phys × Phys) :=
  s.cmds.filterMap (fun c =>
    match c with
    | Cmd.spawnBlock _ p => some p
    | _ => none)

/-- On the reference 10×20 board the shared anchor coordinate `(0, 0)` lands
at physics `(0.5, 10.5)`. -/
theorem spawn_block_origin_start :
    spawn_block Game.start ((0 : Int), (0 : Int)) = (1/2, 21/2) := by
  simp only [spawn_block, Game.board_to_physics, Game.translate_to_board_center_top,
    Game.start, Game.left_edge_x, Game.floor_y, N_LANES, N_ROWS]
  norm_num

/-- C1 counterexample: spawning kind O on the reference 10×20 board puts all
4 blocks at the single physics position `(0.5, 10.5)` — the spawned blocks do
not occupy 4 distinct physics positions. -/
theorem spawn_o_positions_counterexample :
    block_positions (spawn_tetromino TetrominoKind.O Game.start 0)
        = [(1/2, 21/2), (1/2, 21/2), (1/2, 21/2), (1/2, 21/2)] ∧
      ¬ (block_positions (spawn_tetromino TetrominoKind.O Game.start 0)).Pairwise Ne := by
  have hlist : block_positions (spawn_tetromino TetrominoKind.O Game.start 0)
      = [spawn_block Game.start (0, 0), spawn_block Game.start (0, 0),
         spawn_block Game.start (0, 0), spawn_block Game.start (0, 0)] := rfl
  rw [hlist, spawn_block_origin_start]
  refine ⟨rfl, fun h => ?_⟩
  exact (List.pairwise_cons.mp h).1 _ (List.mem_cons_self _ _) rfl

/-- C1 amended: for every kind, board configuration and allocator state, all
4 blocks are spawned at one shared physics position — the transform of the
layout's first coordinate (the per-block local offsets are expressed only in
the joint anchors, not in the spawn positions); in particular kind O on the
reference 10×20 board spawns all 4 blocks at board `(5, 20)`, i.e. physics
`(0.5, 10.5)`. -/
theorem spawn_blocks_share_anchor_position :
    (∀ (kind : TetrominoKind) (g : Game) (n : Nat),
      block_positions (spawn_tetromino kind g n)
        = List.replicate 4 (spawn_block g (kind.layout.coords.getD 0 (0, 0)))) ∧
    block_positions (spawn_tetromino TetrominoKind.O Game.start 0)
      = List.replicate 4 ((1 : Phys)/2, (21 : Phys)/2) := by
  constructor
  · intro kind g n
    cases kind <;> rfl
  · have hlist : block_positions (spawn_tetromino TetrominoKind.O Game.start 0)
        = List.replicate 4 (spawn_block Game.start (0, 0)) := rfl
    rw [hlist, spawn_block_origin_start]

/-- A rapier rigid body, restricted to the state the embedded systems read. -/
structure RigidBody where
  sleeping : Bool
  deriving DecidableEq

/-- The external physics registry the per-tick systems query:
`handle_of` models `Query<&RigidBodyHandleComponent>::get(entity).ok()` and
`body_of` models `RigidBodySet::get(handle)`. -/
structure PhysicsWorld where
  handle_of : Nat → Option Nat
  body_of : Nat → Option RigidBody

/-- The per-block test of `tetromino_sleep_detection`:
`block_query.get(e).ok().and_then(get body).map(is_sleeping).unwrap_or(false)`. -/
def block_sleeping (w : PhysicsWorld) (entity : Nat) : Bool :=
  (((w.handle_of entity).bind w.body_of).map RigidBody.sleeping).getD false

/-- `game.current_tetromino_blocks.iter().all(...)`. -/
def all_blocks_sleeping (w : PhysicsWorld) (blocks : List Nat) : Bool :=
  blocks.all (block_sleeping w)

/-- `tetromino_sleep_detection`, with the fresh color material handle and the
randomly drawn next kind passed in.  On full rest it despawns every joint of
the active piece, stores the fresh color and runs `spawn_tetromino`;
otherwise it issues no command and leaves the `Game` resource unchanged. -/
def tetromino_sleep_detection (game : Game) (w : PhysicsWorld)
    (new_color : Nat) (new_kind : TetrominoKind) (next_entity : Nat) :
    List Cmd × Game :=
  if all_blocks_sleeping w game.current_tetromino_blocks then
    let despawns := game.current_tetromino_joints.map Cmd.despawn
    let out := spawn_tetromino new_kind
      { game with block_color := some new_color } next_entity
    (despawns ++ out.cmds, out.game)
  else ([], game)

/-- The lateral intent:
`input.pressed(KeyCode::Right) as i8 - input.pressed(KeyCode::Left) as i8`. -/
def lateral_intent (left_pressed right_pressed : Bool) : Int :=
  (if right_pressed then 1 else 0) - (if left_pressed then 1 else 0)

/-- `tetromino_movement`: for each block entity of the active piece whose
rigid body resolves, if the intent is nonzero, apply the force
`Vector2::new(movement as f32 * MOVEMENT_FORCE, 0.0)` to it.  The output is
the list of `(entity, force)` applications issued. -/
def tetromino_movement (left_pressed right_pressed : Bool)
    (game : Game) (w : PhysicsWorld) : List (Nat × (Phys × Phys)) :=
  let movement := lateral_intent left_pressed right_pressed
  game.current_tetromino_blocks.filterMap (fun entity =>
    match w.handle_of entity with
    | none => none
    | some handle =>
      match w.body_of handle with
      | none => none
      | some _ =>
        if movement ≠ 0 then
          some (entity, ((movement : Phys) * MOVEMENT_FORCE, 0))
        else none)

/-- The entities despawned by a command list. -/
def despawned (cmds : List Cmd) : List Nat :=
  cmds.filterMap (fun c =>
    match c with
    | Cmd.despawn e => some e
    | _ => none)

/-- The assembler never despawns anything: its command list is spawn-only. -/
theorem despawn_not_mem_spawn_cmds (kind : TetrominoKind) (g : Game) (n e : Nat) :
    Cmd.despawn e ∉ (spawn_tetromino kind g n).cmds := by
  intro h
  cases kind <;> simp [spawn_tetromino] at h

/-- The assembler's command list contributes no despawned entity. -/
theorem despawned_spawn_cmds (kind : TetrominoKind) (g : Game) (n : Nat) :
    despawned (spawn_tetromino kind g n).cmds = [] := by
  cases kind <;> rfl

/-- `Cmd.despawn` is injective. -/
theorem despawn_injective : Function.Injective Cmd.despawn := by
  intro a b h
  injection h

/-- `despawned` distributes over command-list concatenation. -/
theorem despawned_append (a b : List Cmd) :
    despawned (a ++ b) = despawned a ++ despawned b :=
  List.filterMap_append a b _

/-- Despawning a list of entities despawns exactly those entities. -/
theorem despawned_map_despawn (l : List Nat) :
    despawned (l.map Cmd.despawn) = l := by
  induction l with
  | nil => rfl
  | cons j js ih => exact congrArg (List.cons j) ih

/-- The assembler leaves `block_color` as it found it. -/
theorem spawn_preserves_block_color (kind : TetrominoKind) (g : Game) (n : Nat) :
    (spawn_tetromino kind g n).game.block_color = g.block_color := by
  cases kind <;> rfl

/-- The assembler installs exactly 4 block handles. -/
theorem spawn_block_count (kind : TetrominoKind) (g : Game) (n : Nat) :
    (spawn_tetromino kind g n).game.current_tetromino_blocks.length = 4 := by
  cases kind <;> rfl

/-- Every block handle installed by the assembler is fresh: at least the
allocation counter it was started with. -/
theorem spawn_blocks_fresh (kind : TetrominoKind) (g : Game) (n : Nat) :
    ∀ b ∈ (spawn_tetromino kind g n).game.current_tetromino_blocks, n ≤ b := by
  have hlist : (spawn_tetromino kind g n).game.current_tetromino_blocks
      = [n + 0, n + 1, n + 2, n + 3] := by
    cases kind <;> rfl
  rw [hlist]
  intro b hb
  rcases List.mem_cons.mp hb with rfl | hb
  · omega
  rcases List.mem_cons.mp hb with rfl | hb
  · omega
  rcases List.mem_cons.mp hb with rfl | hb
  · omega
  rcases List.mem_cons.mp hb with rfl | hb
  · omega
  exact absurd hb (List.not_mem_nil b)

/-- A concrete active-piece state for witnesses: a 10×20 board with block
entities 0..3 and joint entities 4..6. -/
def demo_game : Game :=
  { n_lanes := 10
    n_rows := 20
    block_color := some 0
    current_tetromino_blocks := [0, 1, 2, 3]
    current_tetromino_joints := [4, 5, 6] }

/-- A physics registry in which every entity resolves to a sleeping body. -/
def sleep_world : PhysicsWorld :=
  { handle_of := fun e => some e
    body_of := fun _ => some { sleeping := true } }

/-- A physics registry in which every entity resolves, bodies 0..2 are asleep
and body 3 is awake (3-of-4 rest for `demo_game`). -/
def three_asleep_world : PhysicsWorld :=
  { handle_of := fun e => some e
    body_of := fun h => some { sleeping := !(h == 3) } }

/-- A physics registry in which no entity resolves to a rigid body. -/
def missing_world : PhysicsWorld :=
  { handle_of := fun _ => none
    body_of := fun _ => none }

/-- C3: the settling detector performs the settle transition — despawning
every joint of the active piece exactly once, storing the fresh color, and
installing a newly assembled piece of 4 fresh blocks of the fresh kind —
exactly when every block of the active set reports the sleeping status; if
the at-rest check fails (e.g. 3 of 4 asleep), it issues no command and
changes nothing. -/
theorem sleep_detection_settles_iff_all_sleeping
    (game : Game) (w : PhysicsWorld) (new_color : Nat)
    (new_kind : TetrominoKind) (next_entity : Nat)
    (h4 : game.current_tetromino_blocks.length = 4)
    (hnodup : game.current_tetromino_joints.Nodup) :
    (all_blocks_sleeping w game.current_tetromino_blocks = true →
      (∀ j ∈ game.current_tetromino_joints,
        (tetromino_sleep_detection game w new_color new_kind next_entity).1.count
          (Cmd.despawn j) = 1) ∧
      (tetromino_sleep_detection game w new_color new_kind next_entity).2
        = (spawn_tetromino new_kind
            { game with block_color := some new_color } next_entity).game ∧
      (tetromino_sleep_detection game w new_color new_kind next_entity).2.block_color
        = some new_color ∧
      (tetromino_sleep_detection game w new_color new_kind
          next_entity).2.current_tetromino_blocks.length = 4 ∧
      (∀ b ∈ (tetromino_sleep_detection game w new_color new_kind
          next_entity).2.current_tetromino_blocks, next_entity ≤ b)) ∧
    (all_blocks_sleeping w game.current_tetromino_blocks = false →
      tetromino_sleep_detection game w new_color new_kind next_entity
        = ([], game)) := by
  constructor
  · intro hsleep
    have hout : tetromino_sleep_detection game w new_color new_kind next_entity
        = (game.current_tetromino_joints.map Cmd.despawn ++
            (spawn_tetromino new_kind
              { game with block_color := some new_color } next_entity).cmds,
           (spawn_tetromino new_kind
              { game with block_color := some new_color } next_entity).game) := by
      simp [tetromino_sleep_detection, hsleep]
    refine ⟨?_, ?_, ?_, ?_, ?_⟩
    · intro j hj
      rw [hout]
      simp only [List.count_append]
      rw [List.count_map_of_injective _ _ despawn_injective,
        List.count_eq_one_of_mem hnodup hj,
        List.count_eq_zero.mpr (despawn_not_mem_spawn_cmds _ _ _ _)]
    · rw [hout]
    · rw [hout]
      exact spawn_preserves_block_color _ _ _
    · rw [hout]
      exact spawn_block_count _ _ _
    · rw [hout]
      exact spawn_blocks_fresh _ _ _
  · intro hawake
    simp [tetromino_sleep_detection, hawake]

/-- Witness for `sleep_detection_settles_iff_all_sleeping`: on `demo_game`
in `sleep_world` the single joint entity 4 is despawned exactly once. -/
theorem sleep_detection_settles_witness :
    (tetromino_sleep_detection demo_game sleep_world 1 TetrominoKind.I 7).1.count
      (Cmd.despawn 4) = 1 :=
  ((sleep_detection_settles_iff_all_sleeping demo_game sleep_world 1
      TetrominoKind.I 7 rfl (by decide)).1 rfl).1 4 (by decide)

/-- A 3-of-4 at-rest configuration keeps the piece active: no command, no
state change (instance of the `false` branch of the settling rule). -/
theorem three_asleep_keeps_active :
    all_blocks_sleeping three_asleep_world demo_game.current_tetromino_blocks
        = false ∧
      tetromino_sleep_detection demo_game three_asleep_world 1 TetrominoKind.I 7
        = ([], demo_game) :=
  ⟨rfl, rfl⟩

/-- C8: when the settle transition fires, the despawned entities are exactly
the settling piece's joint handles — in particular no block entity (nor any
entity outside the joint collection) is despawned — and the active-piece
block and joint handle collections are replaced by the newly assembled
piece's handles. -/
theorem settle_destroys_only_joints
    (game : Game) (w : PhysicsWorld) (new_color : Nat)
    (new_kind : TetrominoKind) (next_entity : Nat)
    (hsleep : all_blocks_sleeping w game.current_tetromino_blocks = true)
    (hdisj : ∀ b ∈ game.current_tetromino_blocks,
      b ∉ game.current_tetromino_joints) :
    despawned (tetromino_sleep_detection game w new_color new_kind next_entity).1
      = game.current_tetromino_joints ∧
    (∀ e, Cmd.despawn e
        ∈ (tetromino_sleep_detection game w new_color new_kind next_entity).1 →
      e ∈ game.current_tetromino_joints) ∧
    (∀ b ∈ game.current_tetromino_blocks, Cmd.despawn b
      ∉ (tetromino_sleep_detection game w new_color new_kind next_entity).1) ∧
    (tetromino_sleep_detection game w new_color new_kind
        next_entity).2.current_tetromino_blocks
      = (spawn_tetromino new_kind { game with block_color := some new_color }
          next_entity).game.current_tetromino_blocks ∧
    (tetromino_sleep_detection game w new_color new_kind
        next_entity).2.current_tetromino_joints
      = (spawn_tetromino new_kind { game with block_color := some new_color }
          next_entity).game.current_tetromino_joints := by
  have hout : tetromino_sleep_detection game w new_color new_kind next_entity
      = (game.current_tetromino_joints.map Cmd.despawn ++
          (spawn_tetromino new_kind
            { game with block_color := some new_color } next_entity).cmds,
         (spawn_tetromino new_kind
            { game with block_color := some new_color } next_entity).game) := by
    simp [tetromino_sleep_detection, hsleep]
  have hmem : ∀ e, Cmd.despawn e
      ∈ (tetromino_sleep_detection game w new_color new_kind next_entity).1 →
      e ∈ game.current_tetromino_joints := by
    intro e he
    rw [hout] at he
    rcases List.mem_append.mp he with hd | hs
    · rcases List.mem_map.mp hd with ⟨j, hj, hje⟩
      rwa [despawn_injective hje] at hj
    · exact absurd hs (despawn_not_mem_spawn_cmds _ _ _ _)
  refine ⟨?_, hmem, ?_, ?_, ?_⟩
  · rw [hout]
    rw [despawned_append, despawned_map_despawn, despawned_spawn_cmds,
      List.append_nil]
  · intro b hb hcmd
    exact hdisj b hb (hmem b hcmd)
  · rw [hout]
  · rw [hout]

/-- Witness for `settle_destroys_only_joints` on `demo_game` in
`sleep_world`: the despawned entities are exactly the joints `[4, 5, 6]`. -/
theorem settle_destroys_only_joints_witness :
    despawned (tetromino_sleep_detection demo_game sleep_world 1
      TetrominoKind.I 7).1 = demo_game.current_tetromino_joints :=
  (settle_destroys_only_joints demo_game sleep_world 1 TetrominoKind.I 7 rfl
    (by decide)).1

/-- C10: a block of the active set whose rigid body cannot be retrieved
(entity absent from the query, or handle absent from the body set) counts as
not-at-rest, so the piece is not deemed settled: the detector issues no
command and changes nothing. -/
theorem missing_body_blocks_settling
    (game : Game) (w : PhysicsWorld) (new_color : Nat)
    (new_kind : TetrominoKind) (next_entity : Nat) (b : Nat)
    (hb : b ∈ game.current_tetromino_blocks)
    (hmiss : (w.handle_of b).bind w.body_of = none) :
    block_sleeping w b = false ∧
    all_blocks_sleeping w game.current_tetromino_blocks = false ∧
    tetromino_sleep_detection game w new_color new_kind next_entity
      = ([], game) := by
  have hsleep : block_sleeping w b = false := by
    simp [block_sleeping, hmiss]
  have hall : all_blocks_sleeping w game.current_tetromino_blocks = false := by
    cases hcase : all_blocks_sleeping w game.current_tetromino_blocks
    · rfl
    · have := List.all_eq_true.mp hcase b hb
      rw [hsleep] at this
      exact absurd this (by simp)
  refine ⟨hsleep, hall, ?_⟩
  simp [tetromino_sleep_detection, hall]

/-- Witness for `missing_body_blocks_settling`: block 0 of `demo_game` in
`missing_world`. -/
theorem missing_body_blocks_settling_witness :
    block_sleeping missing_world 0 = false ∧
    all_blocks_sleeping missing_world demo_game.current_tetromino_blocks
      = false ∧
    tetromino_sleep_detection demo_game missing_world 1 TetrominoKind.I 7
      = ([], demo_game) :=
  missing_body_blocks_settling demo_game missing_world 1 TetrominoKind.I 7 0
    (by decide) rfl

/-- C7: on a tick with nonzero lateral intent, the movement controller
applies to every block of the active set (whose body resolves) the force
`(intent * MOVEMENT_FORCE, 0)` — purely horizontal, constant magnitude
`MOVEMENT_FORCE`, sign equal to the intent; every force it issues targets a
block of the active set; and with zero intent it applies no force at all. -/
theorem movement_applies_uniform_horizontal_force
    (left_pressed right_pressed : Bool) (game : Game) (w : PhysicsWorld)
    (hret : ∀ e ∈ game.current_tetromino_blocks,
      ((w.handle_of e).bind w.body_of).isSome = true) :
    (lateral_intent left_pressed right_pressed ≠ 0 →
      tetromino_movement left_pressed right_pressed game w
        = game.current_tetromino_blocks.map (fun e =>
            (e, ((lateral_intent left_pressed right_pressed : Phys)
              * MOVEMENT_FORCE, 0)))) ∧
    (lateral_intent left_pressed right_pressed = 0 →
      tetromino_movement left_pressed right_pressed game w = []) ∧
    (∀ f ∈ tetromino_movement left_pressed right_pressed game w,
      f.1 ∈ game.current_tetromino_blocks ∧
      f.2.2 = 0 ∧
      f.2.1 = (lateral_intent left_pressed right_pressed : Phys)
        * MOVEMENT_FORCE ∧
      |f.2.1| = MOVEMENT_FORCE) := by
  refine ⟨?_, ?_, ?_⟩
  · intro hm
    simp only [tetromino_movement]
    rw [List.filterMap_eq_map_iff_forall_eq_some]
    intro e he
    rcases hh : w.handle_of e with _ | h
    · have := hret e he
      rw [hh] at this
      simp at this
    rcases hb : w.body_of h with _ | b
    · have := hret e he
      rw [hh] at this
      simp [hb] at this
    simp [hh, hb, hm]
  · intro hm
    simp only [tetromino_movement]
    rw [List.filterMap_eq_nil_iff]
    intro e _
    rcases hh : w.handle_of e with _ | h
    · simp
    rcases hb : w.body_of h with _ | b
    · simp [hb]
    simp [hb, hm]
  · intro f hf
    simp only [tetromino_movement] at hf
    obtain ⟨e, he, heq⟩ := List.mem_filterMap.mp hf
    rcases hh : w.handle_of e with _ | h
    · simp [hh] at heq
    rcases hb : w.body_of h with _ | b
    · simp [hh, hb] at heq
    simp only [hh, hb] at heq
    by_cases hm : lateral_intent left_pressed right_pressed ≠ 0
    · rw [if_pos hm] at heq
      obtain rfl := Option.some.inj heq
      refine ⟨he, rfl, rfl, ?_⟩
      revert hm
      cases left_pressed <;> cases right_pressed <;> intro hm
      · exact absurd rfl hm
      · norm_num [lateral_intent, MOVEMENT_FORCE]
      · norm_num [lateral_intent, MOVEMENT_FORCE]
      · exact absurd rfl hm
    · rw [if_neg hm] at heq
      exact absurd heq (by simp)

/-- Witness for `movement_applies_uniform_horizontal_force`: right pressed
on `demo_game` in `sleep_world` pushes every one of the four active blocks
with the force `(MOVEMENT_FORCE, 0)`. -/
theorem movement_force_witness :
    tetromino_movement false true demo_game sleep_world
      = demo_game.current_tetromino_blocks.map (fun e =>
          (e, ((lateral_intent false true : Phys) * MOVEMENT_FORCE, 0))) :=
  (movement_applies_uniform_horizontal_force false true demo_game sleep_world
    (by decide)).1 (by decide)
